import Mathlib

/-!
# Verification of the nextcord gateway module

A shallow embedding of `src/nextcord/gateway.py`: the zlib-stream framing
logic of `DiscordWebSocket.received_message` and `Shard._process_raw_data`,
the `GatewayRatelimiter`, close-code classification and the send error
paths, the event-waiter registry, the payload-processing state updates of
`Shard._process_payload` and `DiscordWebSocket.received_message`, and the
voice websocket's latency window and UDP IP discovery.

Python floats standing for timestamps and durations are modelled as `ℚ`;
byte strings as `List Nat` (each element a byte value); `None` as
`Option.none`.  Calls into zlib are kept abstract: the framing functions
return the exact byte buffer that the source hands to
`zlib.decompressobj().decompress`, so that the buffering discipline (the
part the source defines) is fully modelled while the compression codec (an
external library) is not re-implemented.
-/

namespace Nextcord

/-! ## Zlib-stream framing (`received_message` / `_process_raw_data`)

The gateway sends zlib-stream compressed messages; a logical message is
complete when the transmitted bytes end with the 4-byte flush marker
`00 00 FF FF`. -/

/-- The 4-byte zlib flush marker `b"\x00\x00\xff\xff"` that terminates a
complete compressed message. -/
def zlibSuffix : List Nat := [0x00, 0x00, 0xff, 0xff]

/-- The binary-frame branch of `DiscordWebSocket.received_message`
(gateway.py lines 760-767).  The chunk `msg` is appended to
`self._buffer`; if the chunk is shorter than 4 bytes or its last 4 bytes
are not the flush marker, the function returns with no output (the bytes
stay buffered).  Otherwise `zlib.decompress` is applied to the whole
accumulated buffer and the buffer is reset to empty.  The second component
is the byte string handed to the decompressor (`none` = no output). -/
def receivedMessageBinary (buffer msg : List Nat) :
    List Nat × Option (List Nat) :=
  let buf := buffer ++ msg
  if msg.length < 4 ∨ msg.drop (msg.length - 4) ≠ zlibSuffix then
    (buf, none)
  else
    ([], some buf)

/-- The binary-frame branch of `Shard._process_raw_data` (gateway.py lines
217-233).  The chunk is appended to `self._buffer`; if the chunk is
shorter than 4 bytes or does not end with the flush marker, a
`ValueError` is raised.  Otherwise the whole accumulated buffer is
decompressed and the buffer is reset.  `Except.error` carries the raised
message; `Except.ok (buf, out)` gives the new buffer and the bytes handed
to the decompressor. -/
def processRawDataBinary (buffer msg : List Nat) :
    Except String (List Nat × List Nat) :=
  let buf := buffer ++ msg
  if msg.length < 4 ∨ msg.drop (msg.length - 4) ≠ zlibSuffix then
    .error "Invalid zlib encoded message received from the Gateway!"
  else
    .ok ([], buf)

/-- A chunk of length ≥ 4 whose last 4 bytes are the marker is exactly a
chunk having `zlibSuffix` as a suffix. -/
lemma chunk_check_iff_suffix (msg : List Nat) :
    (¬ (msg.length < 4 ∨ msg.drop (msg.length - 4) ≠ zlibSuffix)) ↔
      zlibSuffix <:+ msg := by
  push_neg
  constructor
  · rintro ⟨h4, hdrop⟩
    exact hdrop ▸ List.drop_suffix (msg.length - 4) msg
  · intro h
    obtain ⟨t, ht⟩ := h
    have hlen : msg.length = t.length + 4 := by
      simpa [zlibSuffix] using congrArg List.length ht.symm
    constructor
    · omega
    · have : msg.drop (msg.length - 4) = (t ++ zlibSuffix).drop t.length := by
        rw [ht]; congr 1; simp [hlen, zlibSuffix]
      simpa [List.drop_append] using this

/-- If the chunk ends with the marker, so does the accumulated buffer. -/
lemma suffix_append_of_suffix (buffer msg : List Nat)
    (h : zlibSuffix <:+ msg) : zlibSuffix <:+ buffer ++ msg :=
  h.trans (List.suffix_append buffer msg)

/-! ## `GatewayRatelimiter` (gateway.py lines 76-119)

`time.time()` values and the window length are `ℚ`.  `get_delay` mutates
the bucket and returns the delay to sleep; `block` acquires the lock,
computes the delay and sleeps it (the sleep itself does not change the
bucket).  The state after `block` is the state after `get_delay`. -/

/-- The state of a `GatewayRatelimiter`: `max` and `remaining` slot counts,
the `window` start timestamp and the window length `per`. -/
structure GatewayRatelimiter where
  max : Nat
  remaining : Nat
  window : ℚ
  per : ℚ
deriving DecidableEq, Repr

/-- `GatewayRatelimiter.__init__(count, per)`: `max = remaining = count`,
`window = 0.0`. -/
def GatewayRatelimiter.init (count : Nat) (per : ℚ) : GatewayRatelimiter :=
  ⟨count, count, 0, per⟩

/-- `GatewayRatelimiter.get_delay` (lines 92-108) evaluated at timestamp
`current`: returns the delay to wait and the updated bucket. -/
def GatewayRatelimiter.get_delay (rl : GatewayRatelimiter) (current : ℚ) :
    ℚ × GatewayRatelimiter :=
  let rl := if rl.window + rl.per < current then { rl with remaining := rl.max } else rl
  let rl := if rl.remaining = rl.max then { rl with window := current } else rl
  if rl.remaining = 0 then
    (rl.per - (current - rl.window), rl)
  else
    let rl := { rl with remaining := rl.remaining - 1 }
    let rl := if rl.remaining = 0 then { rl with window := current } else rl
    (0, rl)

/-- `GatewayRatelimiter.block` (lines 110-119): under the lock, compute the
delay and sleep it when nonzero.  Returns the slept duration and the
bucket after the call. -/
def GatewayRatelimiter.block (rl : GatewayRatelimiter) (current : ℚ) :
    ℚ × GatewayRatelimiter :=
  let (delta, rl) := rl.get_delay current
  if delta ≠ 0 then (delta, rl) else (0, rl)

/-- `GatewayRatelimiter.is_ratelimited` (lines 86-90). -/
def GatewayRatelimiter.is_ratelimited (rl : GatewayRatelimiter) (current : ℚ) : Bool :=
  if rl.window + rl.per < current then false else decide (rl.remaining = 0)

/-! ## Close-code classification and the send paths
(`DiscordWebSocket._can_handle_close`, `poll_event`, `send_as_json`,
`send_heartbeat`, gateway.py lines 883-949) -/

/-- The close codes treated as non-resumable by `_can_handle_close`:
`(1000, 4004, 4010, 4011, 4012, 4013, 4014)`. -/
def fatalCloseCodes : List Nat := [1000, 4004, 4010, 4011, 4012, 4013, 4014]

/-- Python's `a or b` on `self._close_code or self.socket.close_code`:
`None` and `0` fall through to the second operand. -/
def pyOrCode : Option Nat → Option Nat → Option Nat
  | some n, b => if n = 0 then b else some n
  | none, b => b

/-- `DiscordWebSocket._can_handle_close` (lines 883-885): the effective
code is `self._close_code or self.socket.close_code`; the socket can be
handled (closure is resumable) iff that code is not one of the fatal
codes.  A missing code (`None`) is not in the tuple, hence resumable. -/
def canHandleClose (close_code socket_close_code : Option Nat) : Bool :=
  match pyOrCode close_code socket_close_code with
  | none => true
  | some c => decide (c ∉ fatalCloseCodes)

/-- Outcome of `DiscordWebSocket.poll_event`'s exception handler (lines
909-925): either a `ReconnectWebSocket` signal or a terminal
`ConnectionClosed` carrying the effective close code. -/
inductive PollOutcome where
  | reconnect
  | connectionClosed (code : Option Nat)
deriving DecidableEq, Repr

/-- The `except (asyncio.TimeoutError, WebSocketClosure)` branch of
`poll_event` (lines 909-925).  `timedOut = true` models the
`asyncio.TimeoutError` case (receive timeout); otherwise the socket was
closed and the close code decides between reconnect and a terminal
`ConnectionClosed`. -/
def pollEventClosure (timedOut : Bool)
    (close_code socket_close_code : Option Nat) : PollOutcome :=
  if timedOut then .reconnect
  else if canHandleClose close_code socket_close_code then .reconnect
  else .connectionClosed (pyOrCode close_code socket_close_code)

/-- Result of a send attempt: the write succeeded, the `RuntimeError` was
swallowed, or a `ConnectionClosed` was raised in its place. -/
inductive SendOutcome where
  | sent
  | swallowed
  | connectionClosedRaised
deriving DecidableEq, Repr

/-- `DiscordWebSocket.send_as_json` (lines 936-941): `self.send` acquires
the rate limiter (`block`) and writes the frame; if the write raises
`RuntimeError` (`writeRaises`), the error is re-raised as
`ConnectionClosed` when `_can_handle_close()` is false and swallowed
otherwise.  Returns the bucket after the call and the outcome. -/
def sendAsJson (writeRaises : Bool) (close_code socket_close_code : Option Nat)
    (rl : GatewayRatelimiter) (current : ℚ) : GatewayRatelimiter × SendOutcome :=
  let rl := (rl.block current).2
  if writeRaises then
    if canHandleClose close_code socket_close_code then
      (rl, .swallowed)
    else
      (rl, .connectionClosedRaised)
  else
    (rl, .sent)

/-- `DiscordWebSocket.send_heartbeat` (lines 943-949): writes straight to
the socket, bypassing the rate limit handling code; a `RuntimeError` from
the write is re-raised as `ConnectionClosed` when `_can_handle_close()`
is false and swallowed otherwise.  The rate limiter is never consulted,
so the bucket is returned unchanged. -/
def sendHeartbeat (writeRaises : Bool) (close_code socket_close_code : Option Nat)
    (rl : GatewayRatelimiter) : GatewayRatelimiter × SendOutcome :=
  if writeRaises then
    if canHandleClose close_code socket_close_code then
      (rl, .swallowed)
    else
      (rl, .connectionClosedRaised)
  else
    (rl, .sent)

/-- `Shard.send` (gateway.py lines 206-215): awaits
`self._rate_limiter.block()` and then writes the frame.  Returns the
slept duration and the bucket after the call. -/
def shardSendLimiter (rl : GatewayRatelimiter) (current : ℚ) :
    ℚ × GatewayRatelimiter :=
  rl.block current

/-- `Shard.heartbeat` (gateway.py lines 404-409) sends the HEARTBEAT
payload through `Shard.send`, so its effect on the rate limiter is that
of `Shard.send`: the bucket is acquired (a slot consumed, or the window
waited out). -/
def shardHeartbeatLimiter (rl : GatewayRatelimiter) (current : ℚ) :
    ℚ × GatewayRatelimiter :=
  shardSendLimiter rl current

/-! ## Event waiters (`wait_for` and the listener phase of
`received_message`, gateway.py lines 73, 669-694, 858-881)

`EventListener` is the namedtuple `(predicate, event, result, future)`.
The payload type is a parameter `α`; a predicate that may raise is
modelled as `α → Except String Bool`.  The future slot is modelled by its
state; the listener phase records, per entry, what happened to it. -/

/-- The state of an `asyncio.Future` as observed by the listener loop. -/
inductive FutureState (α : Type) where
  | pending
  | cancelled
deriving DecidableEq, Repr

/-- The `EventListener` namedtuple: `predicate event result future`. -/
structure EventListener (α : Type) where
  predicate : α → Except String Bool
  event : String
  result : Option (α → α)
  future : FutureState α

/-- What the listener phase of `received_message` does to one entry. -/
inductive ListenerAction (α : Type) where
  | keep
  | dropCancelled
  | resolve (v : α)
  | reject (exc : String)
deriving DecidableEq

/-- One iteration of the listener loop in
`DiscordWebSocket.received_message` (lines 860-878): skip entries for
other events; drop entries whose future was cancelled; a raising
predicate rejects the future and drops the entry; a true predicate
resolves the future with `data` (or `result(data)`) and drops the entry;
a false predicate keeps the entry waiting. -/
def processEntry (event : String) (data : α) (e : EventListener α) :
    ListenerAction α :=
  if e.event ≠ event then .keep
  else
    match e.future with
    | .cancelled => .dropCancelled
    | .pending =>
      match e.predicate data with
      | .error exc => .reject exc
      | .ok true =>
        .resolve (match e.result with | none => data | some f => f data)
      | .ok false => .keep

/-- Whether an entry survives the listener loop. -/
def ListenerAction.isKeep : ListenerAction α → Bool
  | .keep => true
  | _ => false

/-- The full listener phase (lines 858-881): every entry whose action is
not `keep` has its index collected in `removed` and is deleted after the
loop; the entries kept are exactly those with action `keep`, in order.
Returns the surviving listener list and the per-entry actions. -/
def dispatchListeners (event : String) (data : α)
    (ls : List (EventListener α)) :
    List (EventListener α) × List (ListenerAction α) :=
  (ls.filter (fun e => (processEntry event data e).isKeep),
   ls.map (processEntry event data))

/-- `DiscordWebSocket.wait_for` (lines 669-694): creates a pending future
and appends the entry to `self._dispatch_listeners`. -/
def waitFor (ls : List (EventListener α)) (event : String)
    (predicate : α → Except String Bool) (result : Option (α → α)) :
    List (EventListener α) :=
  ls ++ [⟨predicate, event, result, .pending⟩]

/-! ## Gateway payload processing

Module-level opcodes (gateway.py lines 43-51) and the
`DiscordWebSocket` class constants (lines 545-557) agree on the opcodes
used below. -/

/-- Opcode `DISPATCH = 0`. -/
def opDISPATCH : Nat := 0
/-- Opcode `HEARTBEAT = 1`. -/
def opHEARTBEAT : Nat := 1
/-- Opcode `RECONNECT = 7`. -/
def opRECONNECT : Nat := 7
/-- Opcode `INVALID_SESSION = 9` (class constant `INVALIDATE_SESSION`). -/
def opINVALID_SESSION : Nat := 9
/-- Opcode `HELLO = 10`. -/
def opHELLO : Nat := 10
/-- Opcode `HEARTBEAT_ACK = 11`. -/
def opHEARTBEAT_ACK : Nat := 11

/-- An inbound gateway payload `{op, s, t, d}` restricted to the `d`
projections that the handlers read: `d` as a boolean (`INVALID_SESSION`),
`d["heartbeat_interval"]` (`HELLO`, in milliseconds), and
`d["session_id"]` / `d["resume_gateway_url"]` (`READY` dispatch). -/
structure GatewayPayload where
  op : Nat
  s : Option Int
  t : Option String
  dBool : Bool
  dHeartbeatInterval : ℚ
  dSessionId : String
  dResumeUrl : String

/-- The state of a pending heartbeat-ack future: the loop creates it
`pending`; `set_result(None)` makes it `resolved`. -/
inductive AckFuture where
  | pending
  | resolved
deriving DecidableEq, Repr

/-- The fields of `Shard` that `_process_payload` reads or writes
(gateway.py lines 187-195): session bookkeeping and the heartbeat
bookkeeping.  `heartbeat_ack_received = none` models the Python `None`. -/
structure ShardState where
  sequence : Option Int
  session_id : Option String
  resume_url : Option String
  latency : ℚ
  heartbeat_ack_received : Option AckFuture
  heartbeat_sent_time : ℚ
  heartbeat_interval : ℚ

/-- `Shard.disconnect` (lines 245-270): cancels the heartbeat task and the
pending ack future; when the session is not kept, clears `resume_url`,
`session_id` and `sequence`. -/
def Shard.disconnect (st : ShardState) (keepSession : Bool) : ShardState :=
  let st := { st with heartbeat_ack_received := none }
  if keepSession then st
  else { st with resume_url := none, session_id := none, sequence := none }

/-- The `READY`/`RESUMED` branch of `Shard.dispatch_events` (lines
330-350): `READY` captures `session_id` and `resume_gateway_url`;
`RESUMED` changes no modelled field.  (The parser call and the listener
phase — modelled by `dispatchListeners` — do not touch these fields.) -/
def Shard.dispatchEvents (st : ShardState) (p : GatewayPayload) : ShardState :=
  if p.t = some "READY" then
    { st with session_id := some p.dSessionId, resume_url := some p.dResumeUrl }
  else st

/-- `Shard._process_payload` (gateway.py lines 294-328) evaluated with
`time.perf_counter() = now`.  The branches are successive `if`s on
`payload["op"]`, applied to the state in order:
`s`-update, DISPATCH, RECONNECT (→ `disconnect()`), HEARTBEAT_ACK (only
when a pending future exists), HEARTBEAT (sends a heartbeat, stamping
`_heartbeat_sent_time`), HELLO (interval from `d`, immediate heartbeat,
then resume/identify), INVALID_SESSION (→ `disconnect(keep_session=
bool(d))`). -/
def Shard.processPayload (st : ShardState) (p : GatewayPayload) (now : ℚ) :
    ShardState :=
  let st := match p.s with
    | some seq => { st with sequence := some seq }
    | none => st
  let st := if p.op = opDISPATCH then Shard.dispatchEvents st p else st
  let st := if p.op = opRECONNECT then Shard.disconnect st false else st
  let st :=
    if p.op = opHEARTBEAT_ACK ∧ st.heartbeat_ack_received.isSome then
      { st with heartbeat_ack_received := some .resolved,
                latency := now - st.heartbeat_sent_time }
    else st
  let st := if p.op = opHEARTBEAT then { st with heartbeat_sent_time := now } else st
  let st :=
    if p.op = opHELLO then
      { st with heartbeat_interval := p.dHeartbeatInterval / 1000,
                heartbeat_sent_time := now }
    else st
  let st := if p.op = opINVALID_SESSION then Shard.disconnect st p.dBool else st
  st

/-- The outcome of `DiscordWebSocket.received_message`: normal return or a
raised `ReconnectWebSocket(resume)`. -/
inductive DWOutcome where
  | normal
  | reconnect (resume : Bool)
deriving DecidableEq, Repr

/-- The fields of `DiscordWebSocket` that the payload part of
`received_message` reads or writes (gateway.py lines 583-595). -/
structure DWState where
  sequence : Option Int
  session_id : Option String
  resume_url : Option String
  latency : ℚ
  heartbeat_ack_received : Option AckFuture
  heartbeat_sent_time : ℚ
  heartbeat_interval : ℚ

/-- The payload-handling part of `DiscordWebSocket.received_message`
(gateway.py lines 770-856) evaluated with `time.perf_counter() = now`,
given an already-decoded payload.  Mirrors the source's branch order:
`s`-update first; then for non-DISPATCH ops: RECONNECT closes and raises
`ReconnectWebSocket`; HEARTBEAT_ACK (only with a pending future) resolves
it and updates `latency`; HEARTBEAT sends a heartbeat; HELLO stores the
interval and sends the immediate heartbeat; INVALIDATE_SESSION either
raises `ReconnectWebSocket` (d is True) or clears `sequence`/`session_id`
and raises `ReconnectWebSocket(resume=False)`; any other op logs and
returns.  For DISPATCH, `READY` re-reads `message["s"]` into `sequence`
and captures `session_id`/`resume_gateway_url`.  (The parser call and the
listener phase — `dispatchListeners` — do not touch these fields.) -/
def DW.receivedPayload (st : DWState) (p : GatewayPayload) (now : ℚ) :
    DWState × DWOutcome :=
  let st := match p.s with
    | some seq => { st with sequence := some seq }
    | none => st
  if p.op ≠ opDISPATCH then
    if p.op = opRECONNECT then
      (st, .reconnect true)
    else if p.op = opHEARTBEAT_ACK ∧ st.heartbeat_ack_received.isSome then
      ({ st with heartbeat_ack_received := some .resolved,
                 latency := now - st.heartbeat_sent_time }, .normal)
    else if p.op = opHEARTBEAT then
      ({ st with heartbeat_sent_time := now }, .normal)
    else if p.op = opHELLO then
      ({ st with heartbeat_interval := p.dHeartbeatInterval / 1000,
                 heartbeat_sent_time := now }, .normal)
    else if p.op = opINVALID_SESSION then
      if p.dBool then
        (st, .reconnect true)
      else
        ({ st with sequence := none, session_id := none }, .reconnect false)
    else
      (st, .normal)
  else
    let st :=
      if p.t = some "READY" then
        { st with sequence := p.s, session_id := some p.dSessionId,
                  resume_url := some p.dResumeUrl }
      else st
    (st, .normal)

/-! ## Voice websocket: latency samples and UDP IP discovery
(`DiscordVoiceWebSocket`, gateway.py lines 1195-1283) -/

/-- The latency-list update in the `HEARTBEAT_ACK` branch of
`DiscordVoiceWebSocket.received_message` (lines 1219-1222): if the list
already has more than 20 entries, clear it; then append the new sample. -/
def pushLatency (ls : List ℚ) (x : ℚ) : List ℚ :=
  let ls := if 20 < ls.length then [] else ls
  ls ++ [x]

/-- The whole `HEARTBEAT_ACK` branch (lines 1215-1222): taken only when a
pending ack future exists (`elif op == self.HEARTBEAT_ACK and
self._heartbeat_ack_received`), it resolves the future and pushes the
sample `ack_time - self._heartbeat_sent_time`.  Without a future the
branch is skipped and nothing changes. -/
def voiceHeartbeatAck (ls : List ℚ) (ackReceived : Option AckFuture)
    (sentTime now : ℚ) : List ℚ × Option AckFuture :=
  match ackReceived with
  | none => (ls, none)
  | some _ => (pushLatency ls (now - sentTime), some .resolved)

/-- `DiscordVoiceWebSocket.average_latency` (lines 1277-1283): the mean of
the stored samples; `none` models the `float("inf")` returned for an
empty list. -/
def averageLatency (ls : List ℚ) : Option ℚ :=
  if ls.isEmpty then none else some (ls.sum / ls.length)

/-- Big-endian `struct.pack(">H", n)` for `n < 2^16`. -/
def u16be (n : Nat) : List Nat := [n / 256 % 256, n % 256]

/-- Big-endian `struct.pack(">I", n)` for `n < 2^32`. -/
def u32be (n : Nat) : List Nat :=
  [n / 2 ^ 24 % 256, n / 2 ^ 16 % 256, n / 2 ^ 8 % 256, n % 256]

/-- The discovery request packet built by
`DiscordVoiceWebSocket.initial_connection` (lines 1246-1251):
`bytearray(74)` (all zeros), then `pack_into(">H", 0, 1)`,
`pack_into(">H", 2, 70)`, `pack_into(">I", 4, ssrc)` — i.e. bytes 0-1 are
the request type 1, bytes 2-3 the length 70, bytes 4-7 the big-endian
ssrc, bytes 8-73 untouched zeros. -/
def ipDiscoveryPacket (ssrc : Nat) : List Nat :=
  u16be 1 ++ u16be 70 ++ u32be ssrc ++ List.replicate 66 0

/-- Read a big-endian u16 at `off` (out-of-range bytes default to 0),
matching `struct.unpack_from(">H", recv, off)`. -/
def readU16BE (l : List Nat) (off : Nat) : Nat :=
  256 * l.getD off 0 + l.getD (off + 1) 0

/-- Read a big-endian u32 at `off`. -/
def readU32BE (l : List Nat) (off : Nat) : Nat :=
  2 ^ 24 * l.getD off 0 + 2 ^ 16 * l.getD (off + 1) 0 +
    2 ^ 8 * l.getD (off + 2) 0 + l.getD (off + 3) 0

/-- The IP parse of the discovery reply (lines 1256-1259): `ip_start = 8`,
`ip_end = recv.index(0, ip_start)`, `recv[ip_start:ip_end]` — the bytes
from offset 8 up to (excluding) the first null byte. -/
def parseDiscoveryIp (recv : List Nat) : List Nat :=
  (recv.drop 8).takeWhile (fun b => b ≠ 0)

/-- The port parse of the discovery reply (line 1261):
`struct.unpack_from(">H", recv, len(recv) - 2)[0]` — the big-endian u16
in the final two bytes. -/
def parseDiscoveryPort (recv : List Nat) : Nat :=
  readU16BE recv (recv.length - 2)

/-- `bytes.decode("ascii")` on a list of byte values (all < 128 in the
inputs considered). -/
def decodeAscii (bs : List Nat) : String :=
  String.mk (bs.map Char.ofNat)

/-! ## Claim theorems -/

/-- C2: a socket close code `c` is classified non-resumable
(`_can_handle_close` returns `False`) exactly when
`c ∈ {1000, 4004, 4010, 4011, 4012, 4013, 4014}`; on closure,
`poll_event` raises a terminal `ConnectionClosed` exactly for those codes
and a resumable `ReconnectWebSocket` for every other code; a receive
timeout always raises `ReconnectWebSocket`; in particular 4004 is fatal
and 1006 is resumable. -/
theorem close_code_classification (c : Nat) :
    (canHandleClose none (some c) = false ↔ c ∈ fatalCloseCodes) ∧
    (pollEventClosure false none (some c) =
      if c ∈ fatalCloseCodes then PollOutcome.connectionClosed (some c)
      else PollOutcome.reconnect) ∧
    (∀ cc sc, pollEventClosure true cc sc = PollOutcome.reconnect) ∧
    canHandleClose none (some 4004) = false ∧
    pollEventClosure false none (some 4004) =
      PollOutcome.connectionClosed (some 4004) ∧
    canHandleClose none (some 1006) = true ∧
    pollEventClosure false none (some 1006) = PollOutcome.reconnect := by
  refine ⟨?_, ?_, fun cc sc => rfl, by decide, by decide, by decide, by decide⟩
  · by_cases h : c ∈ fatalCloseCodes <;>
      simp [canHandleClose, pyOrCode, h]
  · by_cases h : c ∈ fatalCloseCodes <;>
      simp [pollEventClosure, canHandleClose, pyOrCode, h]

/-- C5 counterexample: with the socket closed under the fatal code 4004
(`_can_handle_close() = False`), a failing write in `send_as_json` is
re-raised as `ConnectionClosed` — it is *reported*, not swallowed,
contradicting the claim that the error is swallowed exactly when
`_can_handle_close()` is `False`. -/
theorem send_as_json_claim_counterexample :
    (sendAsJson true (some 4004) none (GatewayRatelimiter.init 110 60) 100).2 =
      SendOutcome.connectionClosedRaised ∧
    canHandleClose (some 4004) none = false ∧
    (sendAsJson true (some 1006) none (GatewayRatelimiter.init 110 60) 100).2 =
      SendOutcome.swallowed ∧
    canHandleClose (some 1006) none = true := by
  exact ⟨rfl, rfl, rfl, rfl⟩

/-- C5 amended: a closed-socket write failure (`RuntimeError`) is
swallowed by `send_as_json` (and `send_heartbeat`) exactly when
`_can_handle_close()` is `True` (closure resumable, a reconnect already
in flight), and re-raised as `ConnectionClosed` exactly when
`_can_handle_close()` is `False`. -/
theorem send_error_reporting (w : Bool) (cc sc : Option Nat)
    (rl : GatewayRatelimiter) (t : ℚ) :
    ((sendAsJson w cc sc rl t).2 = SendOutcome.swallowed ↔
      w = true ∧ canHandleClose cc sc = true) ∧
    ((sendAsJson w cc sc rl t).2 = SendOutcome.connectionClosedRaised ↔
      w = true ∧ canHandleClose cc sc = false) ∧
    ((sendHeartbeat w cc sc rl).2 = SendOutcome.swallowed ↔
      w = true ∧ canHandleClose cc sc = true) ∧
    ((sendHeartbeat w cc sc rl).2 = SendOutcome.connectionClosedRaised ↔
      w = true ∧ canHandleClose cc sc = false) := by
  cases w <;> cases h : canHandleClose cc sc <;>
    simp [sendAsJson, sendHeartbeat, h]

/-- C10: a `HEARTBEAT_ACK` payload processed while no pending-ack future
exists leaves the whole modelled state unchanged — no future is resolved
and the stored latency is untouched — for both
`DiscordWebSocket.received_message` and `Shard._process_payload`. -/
theorem heartbeat_ack_without_future_ignored (seq : Option Int)
    (sid ru : Option String) (lat sent intv now : ℚ) :
    DW.receivedPayload ⟨seq, sid, ru, lat, none, sent, intv⟩
        ⟨opHEARTBEAT_ACK, none, none, false, 0, "", ""⟩ now =
      (⟨seq, sid, ru, lat, none, sent, intv⟩, DWOutcome.normal) ∧
    Shard.processPayload ⟨seq, sid, ru, lat, none, sent, intv⟩
        ⟨opHEARTBEAT_ACK, none, none, false, 0, "", ""⟩ now =
      ⟨seq, sid, ru, lat, none, sent, intv⟩ := by
  constructor <;>
    simp [DW.receivedPayload, Shard.processPayload, Shard.dispatchEvents,
      Shard.disconnect, opHEARTBEAT_ACK, opDISPATCH, opRECONNECT,
      opHEARTBEAT, opHELLO, opINVALID_SESSION]

/-- C9: a waiter registered via `wait_for` for event `"X"` with an
always-true predicate is resolved by the first dispatched `"X"` event
with the raw payload (or `result(payload)` when a transform is given) and
removed from the listener list, so a second `"X"` dispatch resolves
nothing; a waiter whose predicate returns false is kept, with its future
still pending. -/
theorem event_waiter_one_shot {α : Type} (data data2 : α) (r : Option (α → α)) :
    (dispatchListeners "X" data (waitFor [] "X" (fun _ => .ok true) r)).2 =
      [ListenerAction.resolve
        (match r with | none => data | some f => f data)] ∧
    (dispatchListeners "X" data (waitFor [] "X" (fun _ => .ok true) r)).1 = [] ∧
    dispatchListeners "X" data2
        (dispatchListeners "X" data (waitFor [] "X" (fun _ => .ok true) r)).1 =
      ([], []) ∧
    (dispatchListeners "X" data (waitFor [] "X" (fun _ => .ok false) r)).1 =
      waitFor [] "X" (fun _ => .ok false) r ∧
    (dispatchListeners "X" data (waitFor [] "X" (fun _ => .ok false) r)).2 =
      [ListenerAction.keep] ∧
    (waitFor [] "X" (fun _ => .ok false) r).map (·.future) =
      [FutureState.pending] := by
  refine ⟨?_, ?_, ?_, ?_, ?_, ?_⟩ <;>
    simp [dispatchListeners, waitFor, processEntry, ListenerAction.isKeep]

/-- C4 counterexample: `Shard.heartbeat` sends through `Shard.send`, which
acquires the rate limiter — on a fresh default bucket (110 slots / 60 s)
a heartbeat at time 100 leaves `remaining = 109`, not the unchanged 110
that the claimed bypass would give. -/
theorem shard_heartbeat_bypass_counterexample :
    (shardHeartbeatLimiter (GatewayRatelimiter.init 110 60) 100).2.remaining = 109 ∧
    (GatewayRatelimiter.init 110 60).remaining = 110 := by
  constructor <;>
    norm_num [shardHeartbeatLimiter, shardSendLimiter, GatewayRatelimiter.block,
      GatewayRatelimiter.get_delay, GatewayRatelimiter.init]

/-- C4 amended: `DiscordWebSocket.send_heartbeat` bypasses the rate
limiter — the bucket is unchanged on every path, success or failure — but
`Shard.heartbeat` sends through `Shard.send`, which acquires the limiter:
inside an open window with at least one slot left it consumes a slot,
changing the remaining count. -/
theorem heartbeat_limiter_paths (rl : GatewayRatelimiter) (now : ℚ)
    (hrem : rl.remaining ≠ 0) (hwin : ¬ rl.window + rl.per < now) :
    (∀ (w : Bool) (cc sc : Option Nat) (rl' : GatewayRatelimiter),
      (sendHeartbeat w cc sc rl').1 = rl') ∧
    (shardHeartbeatLimiter rl now).2.remaining = rl.remaining - 1 ∧
    (shardHeartbeatLimiter rl now).2.remaining ≠ rl.remaining := by
  refine ⟨?_, ?_, ?_⟩
  · intro w cc sc rl'
    cases w <;> simp [sendHeartbeat] <;> split <;> rfl
  · simp only [shardHeartbeatLimiter, shardSendLimiter, GatewayRatelimiter.block,
      GatewayRatelimiter.get_delay, if_neg hwin]
    split <;> split <;> simp_all
  · simp only [shardHeartbeatLimiter, shardSendLimiter, GatewayRatelimiter.block,
      GatewayRatelimiter.get_delay, if_neg hwin]
    split <;> split <;> simp_all <;> omega

/-- C4 witness: the amended statement at a concrete bucket (2 slots, 60 s
window, call at time 10): the heartbeat through `Shard.send` consumes a
slot, while `send_heartbeat` leaves a concrete bucket unchanged. -/
theorem heartbeat_limiter_paths_witness :
    (sendHeartbeat true (some 4004) none (GatewayRatelimiter.init 2 60)).1 =
      GatewayRatelimiter.init 2 60 ∧
    (shardHeartbeatLimiter (GatewayRatelimiter.init 2 60) 10).2.remaining = 2 - 1 ∧
    (shardHeartbeatLimiter (GatewayRatelimiter.init 2 60) 10).2.remaining ≠ 2 :=
  ⟨(heartbeat_limiter_paths (GatewayRatelimiter.init 2 60) 10 (by decide)
      (by norm_num [GatewayRatelimiter.init])).1 true (some 4004) none _,
   (heartbeat_limiter_paths (GatewayRatelimiter.init 2 60) 10 (by decide)
      (by norm_num [GatewayRatelimiter.init])).2.1,
   (heartbeat_limiter_paths (GatewayRatelimiter.init 2 60) 10 (by decide)
      (by norm_num [GatewayRatelimiter.init])).2.2⟩

/-- C6 counterexample: `GatewayRatelimiter(2, 1)` with three back-to-back
`block` calls at time 10 — after the third call's wait completes,
`remaining` is still 0, not reset to the capacity 2 as claimed (the reset
happens only lazily inside the *next* `get_delay`). -/
theorem ratelimiter_reset_counterexample :
    ((((GatewayRatelimiter.init 2 1).block 10).2.block 10).2.block 10).2.remaining
      = 0 ∧
    ¬ ((((GatewayRatelimiter.init 2 1).block 10).2.block 10).2.block
      10).2.remaining = 2 := by
  constructor <;>
    norm_num [GatewayRatelimiter.block, GatewayRatelimiter.get_delay,
      GatewayRatelimiter.init]

/-- C6 amended: with capacity 2 and a 1 s window, three back-to-back
`block` calls (the first opening a fresh window) make the third call wait
exactly the remaining window time `per - (t3 - window_start)`; the wait
consumes no slot, so after it completes `remaining` is still 0, and
`remaining` is refilled only at the next acquire after the window has
elapsed, which then consumes one slot leaving `capacity - 1`. -/
theorem ratelimiter_third_call (t1 t2 t3 : ℚ)
    (h1 : 1 < t1) (h12 : t1 ≤ t2) (h2 : t2 ≤ t1 + 1) (h23 : t2 ≤ t3)
    (h3 : t3 ≤ t2 + 1) :
    (GatewayRatelimiter.init 2 1).block t1 = (0, ⟨2, 1, t1, 1⟩) ∧
    (GatewayRatelimiter.mk 2 1 t1 1).block t2 = (0, ⟨2, 0, t2, 1⟩) ∧
    (GatewayRatelimiter.mk 2 0 t2 1).block t3 =
      (1 - (t3 - t2), ⟨2, 0, t2, 1⟩) ∧
    0 ≤ 1 - (t3 - t2) ∧
    (∀ t4, t2 + 1 < t4 →
      (GatewayRatelimiter.mk 2 0 t2 1).block t4 = (0, ⟨2, 1, t4, 1⟩)) := by
  have hw1 : (0 : ℚ) + 1 < t1 := by linarith
  have hw2 : ¬ t1 + 1 < t2 := by linarith
  have hw3 : ¬ t2 + 1 < t3 := by linarith
  refine ⟨?_, ?_, ?_, by linarith, ?_⟩
  · simp [GatewayRatelimiter.block, GatewayRatelimiter.get_delay,
      GatewayRatelimiter.init, hw1]
  · simp [GatewayRatelimiter.block, GatewayRatelimiter.get_delay, hw2]
  · by_cases hd : (1 : ℚ) - (t3 - t2) = 0
    · simp [GatewayRatelimiter.block, GatewayRatelimiter.get_delay, hw3, hd]
    · simp [GatewayRatelimiter.block, GatewayRatelimiter.get_delay, hw3, hd]
  · intro t4 h4
    simp [GatewayRatelimiter.block, GatewayRatelimiter.get_delay, h4]

/-- C6 witness: the amended statement at concrete times `t1 = t2 = 2`,
`t3 = 5/2`, next acquire at `t4 = 4`: the third call waits `1/2` (the
remaining window time), `remaining` stays 0 after the wait, and the
acquire at `t4` refills the bucket and consumes a slot, leaving 1. -/
theorem ratelimiter_third_call_witness :
    (GatewayRatelimiter.init 2 1).block 2 = (0, ⟨2, 1, 2, 1⟩) ∧
    (GatewayRatelimiter.mk 2 1 2 1).block 2 = (0, ⟨2, 0, 2, 1⟩) ∧
    (GatewayRatelimiter.mk 2 0 2 1).block (5 / 2) =
      (1 - (5 / 2 - 2), ⟨2, 0, 2, 1⟩) ∧
    (0 : ℚ) ≤ 1 - (5 / 2 - 2) ∧
    (GatewayRatelimiter.mk 2 0 2 1).block 4 = (0, ⟨2, 1, 4, 1⟩) :=
  ⟨(ratelimiter_third_call 2 2 (5 / 2) (by norm_num) (by norm_num)
      (by norm_num) (by norm_num) (by norm_num)).1,
   (ratelimiter_third_call 2 2 (5 / 2) (by norm_num) (by norm_num)
      (by norm_num) (by norm_num) (by norm_num)).2.1,
   (ratelimiter_third_call 2 2 (5 / 2) (by norm_num) (by norm_num)
      (by norm_num) (by norm_num) (by norm_num)).2.2.1,
   (ratelimiter_third_call 2 2 (5 / 2) (by norm_num) (by norm_num)
      (by norm_num) (by norm_num) (by norm_num)).2.2.2.1,
   (ratelimiter_third_call 2 2 (5 / 2) (by norm_num) (by norm_num)
      (by norm_num) (by norm_num) (by norm_num)).2.2.2.2 4 (by norm_num)⟩

/-- The latest-wins sequence assignment: folding the `if seq is not None:
self.sequence = seq` updates over a list of `s` fields. -/
def lastSeq (init : Option Int) (ss : List (Option Int)) : Option Int :=
  ss.foldl (fun acc s => match s with | none => acc | some v => some v) init

/-- On a DISPATCH payload, `Shard._process_payload` leaves `sequence`
equal to the payload's `s` when present, else unchanged. -/
lemma shard_dispatch_sequence (st : ShardState) (p : GatewayPayload)
    (now : ℚ) (hp : p.op = opDISPATCH) :
    (Shard.processPayload st p now).sequence =
      (match p.s with | none => st.sequence | some v => some v) := by
  simp only [Shard.processPayload, hp, opDISPATCH, opRECONNECT, opHEARTBEAT,
    opHEARTBEAT_ACK, opHELLO, opINVALID_SESSION]
  norm_num [Shard.dispatchEvents]
  cases p.s <;> split <;> simp

/-- On a non-READY DISPATCH payload, `DiscordWebSocket.received_message`
leaves `sequence` equal to the payload's `s` when present, else
unchanged. -/
lemma dw_dispatch_sequence (st : DWState) (p : GatewayPayload)
    (now : ℚ) (hp : p.op = opDISPATCH) (ht : p.t ≠ some "READY") :
    ((DW.receivedPayload st p now).1).sequence =
      (match p.s with | none => st.sequence | some v => some v) := by
  simp only [DW.receivedPayload, hp, opDISPATCH]
  norm_num [ht]
  cases p.s <;> simp

/-- C3 counterexample: processing DISPATCH payloads with `s = 7` then
`s = 6` leaves the stored sequence at 6 — it moved backward, because both
handlers assign the latest `s` unconditionally with no monotonicity
guard. -/
theorem sequence_monotonic_counterexample :
    (Shard.processPayload
        (Shard.processPayload ⟨none, none, none, 0, none, 0, 0⟩
          ⟨opDISPATCH, some 7, some "MESSAGE_CREATE", false, 0, "", ""⟩ 0)
        ⟨opDISPATCH, some 6, some "MESSAGE_CREATE", false, 0, "", ""⟩ 0).sequence
      = some 6 ∧
    ((DW.receivedPayload
        (DW.receivedPayload ⟨none, none, none, 0, none, 0, 0⟩
          ⟨opDISPATCH, some 7, some "MESSAGE_CREATE", false, 0, "", ""⟩ 0).1
        ⟨opDISPATCH, some 6, some "MESSAGE_CREATE", false, 0, "", ""⟩ 0).1).sequence
      = some 6 ∧
    (6 : Int) < 7 := by
  refine ⟨?_, ?_, by norm_num⟩ <;>
    norm_num [Shard.processPayload, Shard.dispatchEvents, Shard.disconnect,
      DW.receivedPayload, opDISPATCH, opRECONNECT, opHEARTBEAT,
      opHEARTBEAT_ACK, opHELLO, opINVALID_SESSION,
      show ¬ ("MESSAGE_CREATE" = "READY") from by decide]

/-- C3 amended: the stored sequence is assigned, not monotonically
guarded — after processing any run of DISPATCH payloads (non-READY for
`DiscordWebSocket`, whose READY branch re-reads `s`), the stored sequence
equals the last `s` present in the run (the initial value if none was
present), for both `Shard._process_payload` and
`DiscordWebSocket.received_message`. -/
theorem sequence_latest_wins (init : ShardState) (init' : DWState)
    (ps : List GatewayPayload) (now : ℚ)
    (hops : ∀ p ∈ ps, p.op = opDISPATCH) :
    (ps.foldl (fun st p => Shard.processPayload st p now) init).sequence =
      lastSeq init.sequence (ps.map (·.s)) ∧
    ((∀ p ∈ ps, p.t ≠ some "READY") →
      (ps.foldl (fun st p => (DW.receivedPayload st p now).1) init').sequence =
        lastSeq init'.sequence (ps.map (·.s))) := by
  induction ps generalizing init init' with
  | nil => exact ⟨rfl, fun _ => rfl⟩
  | cons p ps ih =>
    have hp : p.op = opDISPATCH := hops p (List.mem_cons_self p ps)
    have hops' : ∀ q ∈ ps, q.op = opDISPATCH :=
      fun q hq => hops q (List.mem_cons_of_mem p hq)
    constructor
    · have := (ih (Shard.processPayload init p now) init' hops').1
      simp only [List.foldl_cons, List.map_cons, this, lastSeq, List.foldl_cons]
      congr 1
      rw [shard_dispatch_sequence init p now hp]
    · intro hready
      have ht : p.t ≠ some "READY" := hready p (List.mem_cons_self p ps)
      have hready' : ∀ q ∈ ps, q.t ≠ some "READY" :=
        fun q hq => hready q (List.mem_cons_of_mem p hq)
      have := (ih init (DW.receivedPayload init' p now).1 hops').2 hready'
      simp only [List.foldl_cons, List.map_cons, this, lastSeq, List.foldl_cons]
      congr 1
      rw [dw_dispatch_sequence init' p now hp ht]

/-- C3 witness for the amended statement: processing DISPATCH payloads
with `s = 5, 7, 6, 9` leaves the stored sequence at 9 (the last `s`
seen) in both handlers. -/
theorem sequence_latest_wins_witness :
    ([⟨opDISPATCH, some 5, some "E", false, 0, "", ""⟩,
      ⟨opDISPATCH, some 7, some "E", false, 0, "", ""⟩,
      ⟨opDISPATCH, some 6, some "E", false, 0, "", ""⟩,
      (⟨opDISPATCH, some 9, some "E", false, 0, "", ""⟩ : GatewayPayload)].foldl
        (fun st p => Shard.processPayload st p 0)
        ⟨none, none, none, 0, none, 0, 0⟩).sequence = some 9 ∧
    ([⟨opDISPATCH, some 5, some "E", false, 0, "", ""⟩,
      ⟨opDISPATCH, some 7, some "E", false, 0, "", ""⟩,
      ⟨opDISPATCH, some 6, some "E", false, 0, "", ""⟩,
      (⟨opDISPATCH, some 9, some "E", false, 0, "", ""⟩ : GatewayPayload)].foldl
        (fun st p => (DW.receivedPayload st p 0).1)
        ⟨none, none, none, 0, none, 0, 0⟩).sequence = some 9 := by
  have h := sequence_latest_wins ⟨none, none, none, 0, none, 0, 0⟩
    ⟨none, none, none, 0, none, 0, 0⟩
    [⟨opDISPATCH, some 5, some "E", false, 0, "", ""⟩,
     ⟨opDISPATCH, some 7, some "E", false, 0, "", ""⟩,
     ⟨opDISPATCH, some 6, some "E", false, 0, "", ""⟩,
     ⟨opDISPATCH, some 9, some "E", false, 0, "", ""⟩] 0
    (by intro p hp; fin_cases hp <;> rfl)
  exact ⟨h.1.trans rfl, (h.2 (by intro p hp; fin_cases hp <;> simp)).trans rfl⟩

/-- C1 counterexample: fed the single binary chunk `[0x01]` (which does
not end with the marker), `Shard._process_raw_data` raises
`ValueError("Invalid zlib encoded message received from the Gateway!")`
instead of keeping the bytes buffered with no output —
`DiscordWebSocket.received_message` on the same input buffers the byte
and returns nothing. -/
theorem process_raw_data_counterexample :
    processRawDataBinary [] [1] =
      Except.error "Invalid zlib encoded message received from the Gateway!" ∧
    receivedMessageBinary [] [1] = ([1], none) := by
  exact ⟨rfl, rfl⟩

/-- C1 amended: for `DiscordWebSocket.received_message`, a binary chunk
whose arrival leaves the accumulated buffer not ending with the marker
produces no output and the bytes stay buffered, and whenever output is
produced the buffer ends with the marker, the whole accumulated buffer is
handed to the decompressor as one message and the buffer is left empty;
`Shard._process_raw_data`, however, raises a `ValueError` on any chunk
not itself ending with the marker (nothing is kept pending for later
chunks), and decompresses the accumulated buffer when the chunk ends with
the marker. -/
theorem binary_framing (buffer msg : List Nat) :
    (¬ zlibSuffix <:+ buffer ++ msg →
      receivedMessageBinary buffer msg = (buffer ++ msg, none)) ∧
    (∀ newbuf out, receivedMessageBinary buffer msg = (newbuf, some out) →
      zlibSuffix <:+ buffer ++ msg ∧ out = buffer ++ msg ∧ newbuf = []) ∧
    (¬ zlibSuffix <:+ msg →
      processRawDataBinary buffer msg =
        Except.error "Invalid zlib encoded message received from the Gateway!") ∧
    (zlibSuffix <:+ msg →
      processRawDataBinary buffer msg = Except.ok ([], buffer ++ msg)) := by
  refine ⟨?_, ?_, ?_, ?_⟩
  · intro hns
    unfold receivedMessageBinary
    rw [if_pos]
    by_contra hc
    exact hns (suffix_append_of_suffix buffer msg
      ((chunk_check_iff_suffix msg).mp hc))
  · intro newbuf out h
    unfold receivedMessageBinary at h
    split at h
    · simp at h
    · next hc =>
      have hs := (chunk_check_iff_suffix msg).mp hc
      refine ⟨suffix_append_of_suffix buffer msg hs, ?_, ?_⟩
      · cases h
        rfl
      · cases h
        rfl
  · intro hns
    unfold processRawDataBinary
    rw [if_pos]
    by_contra hc
    exact hns ((chunk_check_iff_suffix msg).mp hc)
  · intro hs
    unfold processRawDataBinary
    rw [if_neg ((chunk_check_iff_suffix msg).mpr hs)]

/-- C1 witness: concrete instances of the amended statement — a short
chunk stays buffered with no output in `received_message`, a chunk ending
with the marker flushes the whole accumulated buffer, and
`_process_raw_data` errors on the short chunk and flushes on the
complete one. -/
theorem binary_framing_witness :
    receivedMessageBinary [1] [2] = ([1, 2], none) ∧
    (zlibSuffix <:+ [1] ++ [2, 0, 0, 255, 255] ∧
      [1, 2, 0, 0, 255, 255] = [1] ++ [2, 0, 0, 255, 255] ∧
      ([] : List Nat) = []) ∧
    processRawDataBinary [] [1] =
      Except.error "Invalid zlib encoded message received from the Gateway!" ∧
    processRawDataBinary [1] [2, 0, 0, 255, 255] =
      Except.ok ([], [1] ++ [2, 0, 0, 255, 255]) :=
  ⟨(binary_framing [1] [2]).1 (by decide),
   (binary_framing [1] [2, 0, 0, 255, 255]).2.1 [] [1, 2, 0, 0, 255, 255] rfl,
   (binary_framing [] [1]).2.2.1 (by decide),
   (binary_framing [1] [2, 0, 0, 255, 255]).2.2.2 (by decide)⟩

/-- Every position of a zero-filled list reads back 0 (also past the
end, where `getD` yields the default). -/
lemma getD_replicate_zero (n k : Nat) :
    (List.replicate n (0 : Nat)).getD k 0 = 0 := by
  rcases lt_or_le k n with h | h
  · simp [List.getD_eq_getElem?_getD, List.getElem?_replicate, h]
  · simp [List.getD_eq_getElem?_getD, List.getElem?_replicate, Nat.not_lt.mpr h]

/-- The discovery packet, with the ssrc bytes made explicit. -/
lemma ipDiscoveryPacket_eq (ssrc : Nat) :
    ipDiscoveryPacket ssrc =
      [0, 1, 0, 70, ssrc / 2 ^ 24 % 256, ssrc / 2 ^ 16 % 256,
       ssrc / 2 ^ 8 % 256, ssrc % 256] ++ List.replicate 66 0 := by
  norm_num [ipDiscoveryPacket, u16be, u32be]

/-- The §8 example reply: 8 header bytes, ASCII `"203.0.113.5"` at offset
8 followed by a null, zero padding, and final bytes `0x1F 0x90`; 74 bytes
in total. -/
def discoveryReply : List Nat :=
  List.replicate 8 0 ++ [50, 48, 51, 46, 48, 46, 49, 49, 51, 46, 53] ++
    [0] ++ List.replicate 52 0 ++ [0x1f, 0x90]

/-- C7: `initial_connection` builds a 74-byte discovery packet with
big-endian u16 1 at offset 0, u16 70 at offset 2, the u32 ssrc at offset
4, and zeros everywhere after; and it parses a reply by taking the ASCII
bytes from offset 8 up to the first null as the external IP and the
big-endian u16 in the final two bytes as the external port — on the §8
example reply these come out as `"203.0.113.5"` and 8080. -/
theorem voice_ip_discovery (ssrc : Nat) (h : ssrc < 2 ^ 32) :
    (ipDiscoveryPacket ssrc).length = 74 ∧
    readU16BE (ipDiscoveryPacket ssrc) 0 = 1 ∧
    readU16BE (ipDiscoveryPacket ssrc) 2 = 70 ∧
    readU32BE (ipDiscoveryPacket ssrc) 4 = ssrc ∧
    (∀ i, 8 ≤ i → (ipDiscoveryPacket ssrc).getD i 0 = 0) ∧
    discoveryReply.length = 74 ∧
    decodeAscii (parseDiscoveryIp discoveryReply) = "203.0.113.5" ∧
    parseDiscoveryPort discoveryReply = 8080 := by
  refine ⟨?_, ?_, ?_, ?_, ?_, by decide, by decide, by decide⟩
  · rw [ipDiscoveryPacket_eq]; simp
  · rw [ipDiscoveryPacket_eq]; rfl
  · rw [ipDiscoveryPacket_eq]; rfl
  · rw [ipDiscoveryPacket_eq]
    show 2 ^ 24 * (ssrc / 2 ^ 24 % 256) + 2 ^ 16 * (ssrc / 2 ^ 16 % 256) +
      2 ^ 8 * (ssrc / 2 ^ 8 % 256) + ssrc % 256 = ssrc
    omega
  · intro i hi
    rw [ipDiscoveryPacket_eq, List.getD_append_right _ _ _ _ (by simp; omega)]
    exact getD_replicate_zero 66 _

/-- C7 witness: the discovery packet at `ssrc = 3050` has length 74,
round-trips the ssrc, and zeroes byte 8; the example reply parses to
`"203.0.113.5"` / 8080. -/
theorem voice_ip_discovery_witness :
    (ipDiscoveryPacket 3050).length = 74 ∧
    readU16BE (ipDiscoveryPacket 3050) 0 = 1 ∧
    readU32BE (ipDiscoveryPacket 3050) 4 = 3050 ∧
    (ipDiscoveryPacket 3050).getD 8 0 = 0 ∧
    decodeAscii (parseDiscoveryIp discoveryReply) = "203.0.113.5" ∧
    parseDiscoveryPort discoveryReply = 8080 :=
  ⟨(voice_ip_discovery 3050 (by norm_num)).1,
   (voice_ip_discovery 3050 (by norm_num)).2.1,
   (voice_ip_discovery 3050 (by norm_num)).2.2.2.1,
   (voice_ip_discovery 3050 (by norm_num)).2.2.2.2.1 8 le_rfl,
   (voice_ip_discovery 3050 (by norm_num)).2.2.2.2.2.2.1,
   (voice_ip_discovery 3050 (by norm_num)).2.2.2.2.2.2.2⟩

/-- C8 counterexample: after 21 consecutive `HEARTBEAT_ACK` events (each
with a pending ack future) the stored latency list has length 21 — the
claimed bound of 20 is exceeded, because the source clears the list only
once its length already *exceeds* 20 (`if len(self._latencies) > 20`). -/
theorem latency_window_counterexample :
    ((List.range 21).foldl
        (fun ls n => (voiceHeartbeatAck ls (some AckFuture.pending) 0 (n : ℚ)).1)
        []).length = 21 ∧
    ¬ ((List.range 21).foldl
        (fun ls n => (voiceHeartbeatAck ls (some AckFuture.pending) 0 (n : ℚ)).1)
        []).length ≤ 20 := by
  constructor <;> decide

/-- The latency list update always appends the new sample, so it never
produces the empty list. -/
lemma pushLatency_ne_nil (ls : List ℚ) (x : ℚ) : pushLatency ls x ≠ [] := by
  unfold pushLatency
  split <;> simp

/-- Bound preservation for the latency list. -/
lemma foldl_pushLatency_length (samples : List ℚ) :
    ∀ ls : List ℚ, ls.length ≤ 21 → (samples.foldl pushLatency ls).length ≤ 21 := by
  induction samples with
  | nil => intro ls h; simpa
  | cons x xs ih =>
    intro ls h
    refine ih _ ?_
    unfold pushLatency
    split
    · simp
    · simp only [List.length_append, List.length_singleton]
      omega

/-- The stored latency list is always a suffix of the full sample
stream. -/
lemma foldl_pushLatency_suffix (samples : List ℚ) :
    ∀ ls pre : List ℚ, ls <:+ pre →
      samples.foldl pushLatency ls <:+ pre ++ samples := by
  induction samples with
  | nil => intro ls pre h; simpa
  | cons x xs ih =>
    intro ls pre h
    have h1 : pushLatency ls x <:+ pre ++ [x] := by
      unfold pushLatency
      split
      · simpa using List.suffix_append pre [x]
      · obtain ⟨t, ht⟩ := h
        exact ⟨t, by rw [← List.append_assoc, ht]⟩
    have h2 := ih (pushLatency ls x) (pre ++ [x]) h1
    simpa [List.append_assoc] using h2

/-- C8 amended: the voice heartbeat-ack handler appends
`ack_time - sent_time` to the latency list after clearing it whenever its
length already exceeds 20 — so after any sequence of acks the list holds
at most 21 samples (not 20), and they are always the most recent samples
(a suffix of the full sample stream); an ack with no pending future
changes nothing; `average_latency` returns the mean of the currently
stored samples. -/
theorem latency_window (fut : AckFuture) (ls : List ℚ) (sent now x : ℚ)
    (samples : List ℚ) :
    voiceHeartbeatAck ls (some fut) sent now =
      (pushLatency ls (now - sent), some AckFuture.resolved) ∧
    voiceHeartbeatAck ls none sent now = (ls, none) ∧
    (samples.foldl pushLatency []).length ≤ 21 ∧
    samples.foldl pushLatency [] <:+ samples ∧
    averageLatency ((samples ++ [x]).foldl pushLatency []) =
      some (((samples ++ [x]).foldl pushLatency []).sum /
        ((samples ++ [x]).foldl pushLatency []).length) := by
  refine ⟨rfl, rfl, foldl_pushLatency_length samples [] (by simp), ?_, ?_⟩
  · simpa using foldl_pushLatency_suffix samples [] [] List.nil_suffix
  · rw [List.foldl_append]
    simp only [List.foldl_cons, List.foldl_nil]
    unfold averageLatency
    rw [if_neg]
    simp [List.isEmpty_iff, pushLatency_ne_nil]

end Nextcord
